import Mathlib

/-!
# tunasync worker: the rsync provider

A shallow embedding of `worker/rsync_provider.go`.

* Go strings are Lean `String`s, Go `error` values are their messages.
* A slice that may be `nil` is an `Option (List _)`, `none` being `nil`.
* `time.Duration` and `int` are `Int` (no arithmetic is done on them here).
* The provider is a value passed through explicitly: a method with a pointer
  receiver takes the provider and returns the updated provider.
* Calls that leave the provider (preparing the log file, starting and waiting
  on the process, reading the log, extracting the size) are answered by a
  `Collaborators` record and written to a list of `Event`s, so that "was not
  called" is a statement about that list.
* `Lock`/`Unlock` delimit a critical section; the embedding is sequential and
  they have no counterpart in it.
-/

namespace worker

/-! ## Go library functions used by the provider -/

/-- Go `error`: the value built by `errors.New msg` is identified with `msg`. -/
abbrev GoError := String

/-- Go `errors.New`. -/
def errors.New (msg : String) : GoError := msg

/-- Go `strings.HasSuffix`:
`len(s) >= len(suffix) && s[len(s)-len(suffix):] == suffix`. Go compares bytes,
the embedding compares characters; the only suffix tested here is the one-byte
character `/`, for which the two agree on UTF-8 text. -/
def strings.HasSuffix (s suffix : String) : Bool :=
  decide (s.length ≥ suffix.length) && (s.data.drop (s.length - suffix.length) == suffix.data)

/-- The elements of a possibly-nil slice, as `append(xs, s...)` sees them. -/
def sliceElems {α : Type} : Option (List α) → List α
  | some xs => xs
  | none => []

/-- Go `map[string]string`, as the list of its bindings, newest first. -/
abbrev GoMap := List (String × String)

/-- Assignment `m[k] = v`. -/
def GoMap.set (m : GoMap) (k v : String) : GoMap :=
  (k, v) :: m.filter (fun kv => kv.1 != k)

/-- Lookup `m[k]` with the comma-ok result. -/
def GoMap.get (m : GoMap) (k : String) : Option String :=
  m.lookup k

/-- File contents, `[]byte`. -/
abbrev Bytes := List Nat

/-! ## Data model -/

/-- The configuration record `rsyncConfig`. -/
structure rsyncConfig where
  name : String
  rsyncCmd : String
  upstreamURL : String
  username : String
  password : String
  excludeFile : String
  extraOptions : Option (List String)
  workingDir : String
  logDir : String
  logFile : String
  useIPv6 : Bool
  useIPv4 : Bool
  interval : Int
  retry : Int
  deriving DecidableEq, Repr

/-- The three keys under which the constructor publishes its paths. Their
string values are declared outside `rsync_provider.go`; only that they are
three different keys is used. -/
inductive ctxKey where
  | _WorkingDirKey
  | _LogDirKey
  | _LogFileKey
  deriving DecidableEq, Repr

/-- Modelled from the spec: the context/path store, "key/value mapping used to
publish working-directory, log-directory, and log-file paths to shared code".
Its declaration is not in `rsync_provider.go`. -/
structure Context where
  store : List (ctxKey × String)
  deriving DecidableEq, Repr

/-- Modelled from the spec: `NewContext()`, the empty key/value store. -/
def NewContext : Context := ⟨[]⟩

/-- Modelled from the spec: `ctx.Set(key, value)` of the key/value store. -/
def Context.Set (ctx : Context) (key : ctxKey) (value : String) : Context :=
  ⟨(key, value) :: ctx.store⟩

/-- Modelled from the spec: `ctx.Get(key)` of the key/value store, the value
most recently set for the key. -/
def Context.Get (ctx : Context) (key : ctxKey) : Option String :=
  ctx.store.lookup key

/-- Modelled from the spec: the handle of the process launcher, which is
"given (command vector, working directory, environment map)". The handle type
is declared outside `rsync_provider.go`; the record keeps the three arguments
`newCmdJob` receives besides the provider itself. -/
structure cmdJob where
  cmd : List String
  workingDir : String
  env : GoMap
  deriving DecidableEq, Repr

/-- Modelled from the spec: `newCmdJob(provider, command, workingDir, env)`. -/
def newCmdJob (command : List String) (workingDir : String) (env : GoMap) : cmdJob :=
  ⟨command, workingDir, env⟩

/-- Modelled from the spec: the base provider ("RunGuard": "lock acquisition
and a Running query/set, plus a retry counter"). The struct is declared outside
`rsync_provider.go`; these are the fields that file reads or writes. -/
structure baseProvider where
  name : String
  ctx : Context
  interval : Int
  retry : Int
  cmd : Option cmdJob
  isRunning : Bool
  deriving DecidableEq, Repr

/-- The provider `rsyncProvider`: the two embedded structs and its own fields. -/
structure rsyncProvider where
  baseProvider : baseProvider
  rsyncConfig : rsyncConfig
  options : List String
  dataSize : String
  deriving DecidableEq, Repr

/-- Modelled from the spec: the tag of a job kind; `provRsync` is the one this
file uses. -/
inductive providerEnum where
  | provRsync
  | provTwoStageRsync
  | provCommand
  deriving DecidableEq, Repr

/-! ## Construction -/

/-- The twelve flags every option list starts with. -/
def baselineOptions : List String :=
  [ "-aHvh", "--no-o", "--no-g", "--stats",
    "--exclude", ".~tmp~/",
    "--delete", "--delete-after", "--delay-updates",
    "--safe-links", "--timeout=120", "--contimeout=120" ]

/-- The constructor `newRsyncProvider`. The constant `defaultMaxRetry` is
declared outside `rsync_provider.go` and is a parameter. `Except.error` is the
return `(nil, err)`, `Except.ok p` the return `(p, nil)`. -/
def newRsyncProvider (defaultMaxRetry : Int) (c : rsyncConfig) :
    Except GoError rsyncProvider :=
  if !strings.HasSuffix c.upstreamURL "/" then
    Except.error (errors.New "rsync upstream URL should ends with /")
  else
    let c := if c.retry = 0 then { c with retry := defaultMaxRetry } else c
    let provider : rsyncProvider :=
      { baseProvider :=
          { name := c.name, ctx := NewContext, interval := c.interval, retry := c.retry,
            cmd := none, isRunning := false },
        rsyncConfig := c,
        options := [],
        dataSize := "" }
    let provider :=
      if c.rsyncCmd = "" then
        { provider with rsyncConfig := { provider.rsyncConfig with rsyncCmd := "rsync" } }
      else provider
    let options := baselineOptions
    let options :=
      if c.useIPv6 then options ++ ["-6"]
      else if c.useIPv4 then options ++ ["-4"]
      else options
    let options :=
      if c.excludeFile ≠ "" then options ++ ["--exclude-from", c.excludeFile] else options
    let options :=
      match c.extraOptions with
      | some extra => options ++ extra
      | none => options
    let provider := { provider with options := options }
    let setCtx (p : rsyncProvider) (k : ctxKey) (v : String) : rsyncProvider :=
      { p with baseProvider := { p.baseProvider with ctx := p.baseProvider.ctx.Set k v } }
    let provider := setCtx provider ctxKey._WorkingDirKey c.workingDir
    let provider := setCtx provider ctxKey._LogDirKey c.logDir
    let provider := setCtx provider ctxKey._LogFileKey c.logFile
    Except.ok provider

/-! ## Collaborators and their trace -/

/-- Everything a call does outside the provider, in the order it happens. -/
inductive Event where
  | prepareLogFile (logFile : String) (append : Bool)
  | cmdStart (job : cmdJob)
  | cmdWait (job : Option cmdJob)
  | ReadFile (path : String)
  | ExtractSizeFromRsyncLog (logContent : Bytes)
  deriving DecidableEq, Repr

/-- The answers of the collaborators during one call of `Start` or `Run`:
what opening the log file, starting the process, waiting on it and reading the
log return (`none` is a nil error), and the size extractor, a pure function.
None of them is defined in `rsync_provider.go`. -/
structure Collaborators where
  prepareLogFile : String → Bool → Option GoError
  cmdStart : cmdJob → Option GoError
  cmdWait : Option cmdJob → Option GoError
  ReadFile : String → Except GoError Bytes
  ExtractSizeFromRsyncLog : Bytes → String

/-- What a method returns: the error (`none` for nil), the provider after the
call and the events of the call. -/
structure Result where
  err : Option GoError
  p : rsyncProvider
  events : List Event

/-! ## Methods of the base provider -/

/-- Modelled from the spec: `IsRunning()`, the "Running query" of the run
guard. The method is defined outside `rsync_provider.go`. -/
def baseProvider.IsRunning (p : baseProvider) : Bool :=
  p.isRunning

/-- Modelled from the spec: `WorkingDir()`, the working-directory path
published in the context store (the empty string when none was published).
The method is defined outside `rsync_provider.go`. -/
def baseProvider.WorkingDir (p : baseProvider) : String :=
  (p.ctx.Get ctxKey._WorkingDirKey).getD ""

/-- Modelled from the spec: `LogFile()`, the log-file path published in the
context store (the empty string when none was published). The method is
defined outside `rsync_provider.go`. -/
def baseProvider.LogFile (p : baseProvider) : String :=
  (p.ctx.Get ctxKey._LogFileKey).getD ""

/-- Modelled from the spec: `prepareLogFile(append)`, "Prepare (create/truncate)
the log file; failure to do so aborts Start and returns the underlying I/O
error". The method is defined outside `rsync_provider.go`; it is a method of
the base provider and is given the base provider only. -/
def baseProvider.prepareLogFile (w : Collaborators) (p : baseProvider) (append : Bool) :
    baseProvider × Option GoError × List Event :=
  (p, w.prepareLogFile p.LogFile append, [Event.prepareLogFile p.LogFile append])

/-- Modelled from the spec: `Start()` of the launcher handle, "Launch the
external process through the launcher collaborator". -/
def cmdJob.Start (w : Collaborators) (job : cmdJob) : Option GoError × List Event :=
  (w.cmdStart job, [Event.cmdStart job])

/-- Modelled from the spec: `Wait()`, which "blocks the caller until the
external process exits; returns the process's exit error, if any, unchanged",
after which the state is `Idle` again ("success or failure both return to
Idle"). It waits on the stored handle `p.cmd`. The method is defined outside
`rsync_provider.go`; it is a method of the base provider and is given the base
provider only. -/
def baseProvider.Wait (w : Collaborators) (p : baseProvider) :
    baseProvider × Option GoError × List Event :=
  ({ p with isRunning := false }, w.cmdWait p.cmd, [Event.cmdWait p.cmd])

/-! ## Methods of the rsync provider -/

/-- The accessor `Type`. -/
def rsyncProvider.Type (_p : rsyncProvider) : providerEnum :=
  providerEnum.provRsync

/-- The accessor `Upstream`. -/
def rsyncProvider.Upstream (p : rsyncProvider) : String :=
  p.rsyncConfig.upstreamURL

/-- The accessor `DataSize`. -/
def rsyncProvider.DataSize (p : rsyncProvider) : String :=
  p.dataSize

/-- The environment map `Start` builds from the credentials (the statements
on `env` in the body of `Start`). -/
def rsyncProvider.startEnv (p : rsyncProvider) : GoMap :=
  let env : GoMap := []
  let env := if p.rsyncConfig.username ≠ "" then env.set "USER" p.rsyncConfig.username else env
  let env :=
    if p.rsyncConfig.password ≠ "" then env.set "RSYNC_PASSWORD" p.rsyncConfig.password else env
  env

/-- The command vector `Start` assembles (the statements on `command` in the
body of `Start`). -/
def rsyncProvider.startCommand (p : rsyncProvider) : List String :=
  let command := [p.rsyncConfig.rsyncCmd]
  let command := command ++ p.options
  let command := command ++ [p.rsyncConfig.upstreamURL, p.baseProvider.WorkingDir]
  command

/-- The handle `Start` creates: `newCmdJob(p, command, p.WorkingDir(), env)`. -/
def rsyncProvider.startJob (p : rsyncProvider) : cmdJob :=
  newCmdJob p.startCommand p.baseProvider.WorkingDir p.startEnv

/-- The method `Start`. -/
def rsyncProvider.Start (w : Collaborators) (p : rsyncProvider) : Result :=
  if p.baseProvider.IsRunning then
    ⟨some (errors.New "provider is currently running"), p, []⟩
  else
    let env := p.startEnv
    let command := p.startCommand
    let job := newCmdJob command p.baseProvider.WorkingDir env
    let p := { p with baseProvider := { p.baseProvider with cmd := some job } }
    match p.baseProvider.prepareLogFile w false with
    | (bp, some err, ev) => ⟨some err, { p with baseProvider := bp }, ev⟩
    | (bp, none, ev) =>
      let p := { p with baseProvider := bp }
      match job.Start w with
      | (some err, ev2) => ⟨some err, p, ev ++ ev2⟩
      | (none, ev2) =>
        ⟨none, { p with baseProvider := { p.baseProvider with isRunning := true } }, ev ++ ev2⟩

/-- The method `Run`. -/
def rsyncProvider.Run (w : Collaborators) (p : rsyncProvider) : Result :=
  let p := { p with dataSize := "" }
  let r := p.Start w
  match r.err with
  | some err => ⟨some err, r.p, r.events⟩
  | none =>
    match r.p.baseProvider.Wait w with
    | (bp, some err, ev) => ⟨some err, { r.p with baseProvider := bp }, r.events ++ ev⟩
    | (bp, none, ev) =>
      let p := { r.p with baseProvider := bp }
      match w.ReadFile p.baseProvider.LogFile with
      | Except.ok logContent =>
        ⟨none, { p with dataSize := w.ExtractSizeFromRsyncLog logContent },
          r.events ++ ev ++
            [Event.ReadFile p.baseProvider.LogFile, Event.ExtractSizeFromRsyncLog logContent]⟩
      | Except.error _ => ⟨none, p, r.events ++ ev ++ [Event.ReadFile p.baseProvider.LogFile]⟩

/-! ## Sequences of calls -/

/-- One call on the provider, `Start` or `Run`, together with the answers the
collaborators give during that call. -/
inductive Call where
  | Start (w : Collaborators)
  | Run (w : Collaborators)

/-- The provider after one call. -/
def Call.apply (p : rsyncProvider) : Call → rsyncProvider
  | Call.Start w => (p.Start w).p
  | Call.Run w => (p.Run w).p

/-- The provider after a sequence of calls, the first call first. -/
def applyCalls (p : rsyncProvider) (calls : List Call) : rsyncProvider :=
  calls.foldl Call.apply p

/-! ## Example inputs -/

/-- A mirror job with a directory URL, one extra option, no credentials. -/
def exampleConfig : rsyncConfig :=
  { name := "debian", rsyncCmd := "", upstreamURL := "rsync://host/mod/",
    username := "", password := "", excludeFile := "",
    extraOptions := some ["--bwlimit=1000"],
    workingDir := "/srv/mirror/debian", logDir := "/var/log/tunasync",
    logFile := "/var/log/tunasync/debian.log",
    useIPv6 := false, useIPv4 := false, interval := 0, retry := 0 }

/-- Collaborators that all succeed; the log reads as three bytes and the
extractor answers `1.5G`. -/
def allSucceed : Collaborators :=
  { prepareLogFile := fun _ _ => none,
    cmdStart := fun _ => none,
    cmdWait := fun _ => none,
    ReadFile := fun _ => Except.ok [49, 46, 53],
    ExtractSizeFromRsyncLog := fun _ => "1.5G" }

/-- The example job with IPv6 forced and `-4` passed as an extra option. -/
def familyInExtraConfig : rsyncConfig :=
  { exampleConfig with useIPv6 := true, extraOptions := some ["-4"] }

/-- The example job with no family preference and an exclude file named `-6`. -/
def familyAsExcludeFileConfig : rsyncConfig :=
  { exampleConfig with excludeFile := "-6" }

/-- The example job with the username `rsync`, which is also the default tool
binary. -/
def usernameIsToolConfig : rsyncConfig :=
  { exampleConfig with username := "rsync", password := "s3cret" }

/-- Collaborators whose log file cannot be opened. -/
def logOpenFails : Collaborators :=
  { allSucceed with prepareLogFile := fun _ _ => some "open: permission denied" }

/-- Collaborators whose process cannot be launched. -/
def launchFails : Collaborators :=
  { allSucceed with cmdStart := fun _ => some "exec: rsync: not found" }

/-- Collaborators whose process exits with a failure. -/
def waitFails : Collaborators :=
  { allSucceed with cmdWait := fun _ => some "exit status 23" }

/-- Collaborators whose log file cannot be read back after the run. -/
def readFails : Collaborators :=
  { allSucceed with ReadFile := fun _ => Except.error "open: no such file" }

/-- The example job with both credentials set. -/
def credentialsConfig : rsyncConfig :=
  { exampleConfig with username := "mirror", password := "s3cret" }

/-- The example job with its own tool binary and retry count. -/
def customToolConfig : rsyncConfig :=
  { exampleConfig with rsyncCmd := "/usr/local/bin/rsync", retry := 5 }











/-! ## Lemmas on the constructor -/

theorem slash_data : ("/" : String).data = ['/'] := rfl

theorem hasSuffix_slash_iff (s : String) :
    strings.HasSuffix s "/" = true ↔ ∃ t : String, s = t ++ "/" := by
  constructor
  · intro h
    simp only [strings.HasSuffix, Bool.and_eq_true, decide_eq_true_eq, beq_iff_eq] at h
    obtain ⟨_, h2⟩ := h
    refine ⟨⟨s.data.take (s.length - "/".length)⟩, ?_⟩
    apply String.ext
    rw [String.data_append, slash_data, ← h2]
    exact (List.take_append_drop _ _).symm
  · rintro ⟨t, rfl⟩
    have h1 : (t ++ "/").length = t.data.length + 1 := by
      show (t ++ "/").data.length = _
      rw [String.data_append, List.length_append]
      rfl
    have h2 : ("/" : String).length = 1 := rfl
    simp only [strings.HasSuffix, Bool.and_eq_true, decide_eq_true_eq, beq_iff_eq, h1, h2,
      String.data_append]
    constructor
    · omega
    · rw [Nat.add_sub_cancel, List.drop_left]

theorem newRsyncProvider_error {d : Int} {c : rsyncConfig}
    (h : strings.HasSuffix c.upstreamURL "/" = false) :
    newRsyncProvider d c = Except.error "rsync upstream URL should ends with /" := by
  simp [newRsyncProvider, h, errors.New]

theorem newRsyncProvider_ok {d : Int} {c : rsyncConfig}
    (h : strings.HasSuffix c.upstreamURL "/" = true) :
    ∃ p, newRsyncProvider d c = Except.ok p := by
  simp [newRsyncProvider, h]

theorem newRsyncProvider_fields {d : Int} {c : rsyncConfig} {p : rsyncProvider}
    (h : newRsyncProvider d c = Except.ok p) :
    strings.HasSuffix c.upstreamURL "/" = true ∧
    p.options = baselineOptions
      ++ (if c.useIPv6 = true then ["-6"] else if c.useIPv4 = true then ["-4"] else [])
      ++ (if c.excludeFile ≠ "" then ["--exclude-from", c.excludeFile] else [])
      ++ sliceElems c.extraOptions ∧
    p.rsyncConfig = { c with
      rsyncCmd := if c.rsyncCmd = "" then "rsync" else c.rsyncCmd,
      retry := if c.retry = 0 then d else c.retry } ∧
    p.baseProvider =
      { name := c.name,
        ctx := ⟨[(ctxKey._LogFileKey, c.logFile), (ctxKey._LogDirKey, c.logDir),
                 (ctxKey._WorkingDirKey, c.workingDir)]⟩,
        interval := c.interval,
        retry := if c.retry = 0 then d else c.retry,
        cmd := none,
        isRunning := false } ∧
    p.dataSize = "" := by
  unfold newRsyncProvider at h
  by_cases hs : strings.HasSuffix c.upstreamURL "/" = true
  · simp only [hs, Bool.not_true, Bool.false_eq_true, if_false] at h
    injection h with h
    subst h
    refine ⟨hs, ?_, ?_, ?_, ?_⟩
    · by_cases hr : c.retry = 0 <;> cases hx : c.extraOptions <;>
        by_cases h6 : c.useIPv6 = true <;> by_cases h4 : c.useIPv4 = true <;>
        by_cases he : c.excludeFile = "" <;>
        simp [hr, hx, h6, h4, he, sliceElems]
    · by_cases hr : c.retry = 0 <;> by_cases hc : c.rsyncCmd = "" <;> simp [hr, hc]
    · by_cases hr : c.retry = 0 <;> by_cases hc : c.rsyncCmd = "" <;>
        simp [hr, hc, Context.Set, NewContext]
    · by_cases hr : c.retry = 0 <;> by_cases hc : c.rsyncCmd = "" <;> simp [hr, hc]
  · simp [hs] at h

/-! ## C1: validation of the upstream URL -/

/-- C1: `newRsyncProvider c` returns the error and no provider when
`c.upstreamURL` does not end with "/" (in particular when it is empty), and
returns a provider with a nil error when it does, whatever the other fields
and whatever `defaultMaxRetry` is. -/
theorem C1_newRsyncProvider_trailing_slash (defaultMaxRetry : Int) (c : rsyncConfig) :
    ((¬ ∃ t : String, c.upstreamURL = t ++ "/") →
      newRsyncProvider defaultMaxRetry c =
        Except.error "rsync upstream URL should ends with /") ∧
    (c.upstreamURL = "" →
      newRsyncProvider defaultMaxRetry c =
        Except.error "rsync upstream URL should ends with /") ∧
    ((∃ t : String, c.upstreamURL = t ++ "/") →
      ∃ p, newRsyncProvider defaultMaxRetry c = Except.ok p) := by
  refine ⟨fun h => ?_, fun h => ?_, fun h => ?_⟩
  · apply newRsyncProvider_error
    rw [← Bool.not_eq_true]
    exact fun hs => h ((hasSuffix_slash_iff _).mp hs)
  · apply newRsyncProvider_error
    rw [h]
    decide
  · exact newRsyncProvider_ok ((hasSuffix_slash_iff _).mpr h)

/-- C1 at `rsync://host/mod` (rejected), at the empty URL (rejected) and at
`rsync://host/mod/` (accepted). -/
theorem C1_newRsyncProvider_trailing_slash_witness :
    newRsyncProvider 2 { exampleConfig with upstreamURL := "rsync://host/mod" } =
        Except.error "rsync upstream URL should ends with /" ∧
    newRsyncProvider 2 { exampleConfig with upstreamURL := "" } =
        Except.error "rsync upstream URL should ends with /" ∧
    ∃ p, newRsyncProvider 2 exampleConfig = Except.ok p :=
  ⟨(C1_newRsyncProvider_trailing_slash 2 _).1
      (fun h => absurd ((hasSuffix_slash_iff _).mpr h) (by decide)),
   (C1_newRsyncProvider_trailing_slash 2 _).2.1 rfl,
   (C1_newRsyncProvider_trailing_slash 2 exampleConfig).2.2 ⟨"rsync://host/mod", by decide⟩⟩

/-! ## C2: the option list -/

/-- C2: the option list of a provider built from an accepted configuration is
the twelve baseline flags, then `-6` if `useIPv6` or else `-4` if `useIPv4`,
then `--exclude-from excludeFile` if `excludeFile` is not empty, then the extra
options as given; so the extra options are the last segment, and what stands
before them starts with the baseline flags and, when an exclude file is set,
ends with its two flags. -/
theorem C2_options_layout (defaultMaxRetry : Int) (c : rsyncConfig) (p : rsyncProvider)
    (h : newRsyncProvider defaultMaxRetry c = Except.ok p) :
    p.options =
      [ "-aHvh", "--no-o", "--no-g", "--stats", "--exclude", ".~tmp~/", "--delete",
        "--delete-after", "--delay-updates", "--safe-links", "--timeout=120",
        "--contimeout=120" ]
      ++ (if c.useIPv6 = true then ["-6"] else if c.useIPv4 = true then ["-4"] else [])
      ++ (if c.excludeFile ≠ "" then ["--exclude-from", c.excludeFile] else [])
      ++ sliceElems c.extraOptions ∧
    ∃ front : List String,
      p.options = front ++ sliceElems c.extraOptions ∧
      baselineOptions <+: front ∧ baselineOptions.length = 12 ∧
      (c.excludeFile ≠ "" → ["--exclude-from", c.excludeFile] <:+ front) := by
  have ho := (newRsyncProvider_fields h).2.1
  refine ⟨ho, _, ho, ?_, rfl, ?_⟩
  · rw [List.append_assoc]
    exact List.prefix_append _ _
  · intro he
    rw [if_pos he]
    exact List.suffix_append _ _

/-- C2 at the example configuration with IPv4 forced and an exclude file. -/
theorem C2_options_layout_witness :
    ∃ p, newRsyncProvider 2
        { exampleConfig with useIPv4 := true, excludeFile := "/etc/exclude.txt" } =
          Except.ok p ∧
      p.options =
        [ "-aHvh", "--no-o", "--no-g", "--stats", "--exclude", ".~tmp~/", "--delete",
          "--delete-after", "--delay-updates", "--safe-links", "--timeout=120",
          "--contimeout=120", "-4", "--exclude-from", "/etc/exclude.txt",
          "--bwlimit=1000" ] := by
  obtain ⟨p, hp⟩ : ∃ p, newRsyncProvider 2
      { exampleConfig with useIPv4 := true, excludeFile := "/etc/exclude.txt" } =
        Except.ok p := ⟨_, rfl⟩
  exact ⟨p, hp, (C2_options_layout 2 _ p hp).1.trans (by decide)⟩

/-! ## C3: the network-family flag -/

/-- C3 as stated fails: with IPv6 forced and the extra option `-4` the list
holds both `-6` and `-4` although IPv4 was not requested; and with no family
preference and an exclude file named `-6` the list holds `-6` although IPv6 was
not requested. -/
theorem C3_family_flag_counterexample :
    (∃ p, newRsyncProvider 2 familyInExtraConfig = Except.ok p ∧
      "-6" ∈ p.options ∧ "-4" ∈ p.options ∧ familyInExtraConfig.useIPv4 = false) ∧
    (∃ p, newRsyncProvider 2 familyAsExcludeFileConfig = Except.ok p ∧
      "-6" ∈ p.options ∧ familyAsExcludeFileConfig.useIPv6 = false) :=
  ⟨⟨_, rfl, by decide, by decide, rfl⟩, ⟨_, rfl, by decide, rfl⟩⟩

/-- C3, amended: when neither the exclude file nor an extra option is `-6` or
`-4`, the option list of an accepted configuration never holds both `-6` and
`-4`, holds `-6` exactly when `useIPv6` is set, and holds `-4` exactly when
`useIPv4` is set and `useIPv6` is not. -/
theorem C3_family_flag (defaultMaxRetry : Int) (c : rsyncConfig) (p : rsyncProvider)
    (h : newRsyncProvider defaultMaxRetry c = Except.ok p)
    (hfile : c.excludeFile ≠ "-6" ∧ c.excludeFile ≠ "-4")
    (hextra : "-6" ∉ sliceElems c.extraOptions ∧ "-4" ∉ sliceElems c.extraOptions) :
    ¬ ("-6" ∈ p.options ∧ "-4" ∈ p.options) ∧
    ("-6" ∈ p.options ↔ c.useIPv6 = true) ∧
    ("-4" ∈ p.options ↔ (c.useIPv4 = true ∧ c.useIPv6 = false)) := by
  have ho := (newRsyncProvider_fields h).2.1
  obtain ⟨hf6, hf4⟩ := hfile
  obtain ⟨he6, he4⟩ := hextra
  have hb6 : "-6" ∉ baselineOptions := by decide
  have hb4 : "-4" ∉ baselineOptions := by decide
  have h6 : "-6" ∈ p.options ↔ c.useIPv6 = true := by
    rw [ho]
    by_cases u6 : c.useIPv6 = true <;> by_cases u4 : c.useIPv4 = true <;>
      by_cases hx : c.excludeFile = "" <;>
      simp [u6, u4, hx, hb6, he6, Ne.symm hf6]
  have h4 : "-4" ∈ p.options ↔ (c.useIPv4 = true ∧ c.useIPv6 = false) := by
    rw [ho]
    by_cases u6 : c.useIPv6 = true <;> by_cases u4 : c.useIPv4 = true <;>
      by_cases hx : c.excludeFile = "" <;>
      simp [u6, u4, hx, hb4, he4, Ne.symm hf4]
  refine ⟨?_, h6, h4⟩
  rintro ⟨a, b⟩
  have := h6.mp a
  have := (h4.mp b).2
  simp_all

/-- C3 (amended) at the example configuration with both families requested:
only `-6` is in the list. -/
theorem C3_family_flag_witness :
    ∃ p, newRsyncProvider 2 { exampleConfig with useIPv6 := true, useIPv4 := true } =
        Except.ok p ∧
      "-6" ∈ p.options ∧ "-4" ∉ p.options := by
  obtain ⟨p, hp⟩ : ∃ p, newRsyncProvider 2
      { exampleConfig with useIPv6 := true, useIPv4 := true } = Except.ok p := ⟨_, rfl⟩
  have h := C3_family_flag 2 _ p hp (by decide) (by decide)
  exact ⟨p, hp, h.2.1.mpr rfl, fun h4 => absurd (h.2.2.mp h4).2 (by decide)⟩

/-! ## Lemmas on `Start` -/

theorem Start_running {w : Collaborators} {p : rsyncProvider}
    (h : p.baseProvider.isRunning = true) :
    p.Start w = ⟨some "provider is currently running", p, []⟩ := by
  simp [rsyncProvider.Start, baseProvider.IsRunning, h, errors.New]

theorem Start_prepare_fails {w : Collaborators} {p : rsyncProvider} {e : GoError}
    (h : p.baseProvider.isRunning = false)
    (hprep : w.prepareLogFile p.baseProvider.LogFile false = some e) :
    p.Start w =
      ⟨some e, { p with baseProvider := { p.baseProvider with cmd := some p.startJob } },
        [Event.prepareLogFile p.baseProvider.LogFile false]⟩ := by
  simp [rsyncProvider.Start, baseProvider.IsRunning, h, baseProvider.prepareLogFile,
    baseProvider.LogFile, rsyncProvider.startJob] at hprep ⊢
  simp [hprep]

theorem Start_launch_fails {w : Collaborators} {p : rsyncProvider} {e : GoError}
    (h : p.baseProvider.isRunning = false)
    (hprep : w.prepareLogFile p.baseProvider.LogFile false = none)
    (hstart : w.cmdStart p.startJob = some e) :
    p.Start w =
      ⟨some e, { p with baseProvider := { p.baseProvider with cmd := some p.startJob } },
        [Event.prepareLogFile p.baseProvider.LogFile false, Event.cmdStart p.startJob]⟩ := by
  simp [rsyncProvider.Start, baseProvider.IsRunning, h, baseProvider.prepareLogFile,
    baseProvider.LogFile, rsyncProvider.startJob, cmdJob.Start] at hprep hstart ⊢
  simp [hprep, hstart]

theorem Start_succeeds {w : Collaborators} {p : rsyncProvider}
    (h : p.baseProvider.isRunning = false)
    (hprep : w.prepareLogFile p.baseProvider.LogFile false = none)
    (hstart : w.cmdStart p.startJob = none) :
    p.Start w =
      ⟨none,
        { p with baseProvider :=
            { p.baseProvider with cmd := some p.startJob, isRunning := true } },
        [Event.prepareLogFile p.baseProvider.LogFile false, Event.cmdStart p.startJob]⟩ := by
  simp [rsyncProvider.Start, baseProvider.IsRunning, h, baseProvider.prepareLogFile,
    baseProvider.LogFile, rsyncProvider.startJob, cmdJob.Start] at hprep hstart ⊢
  simp [hprep, hstart]

/-- An idle provider's `Start` always stores the handle built from the provider
as it was before the call. -/
theorem Start_idle_cmd {w : Collaborators} {p : rsyncProvider}
    (h : p.baseProvider.isRunning = false) :
    (p.Start w).p.baseProvider.cmd = some p.startJob := by
  cases hprep : w.prepareLogFile p.baseProvider.LogFile false with
  | some e => rw [Start_prepare_fails h hprep]
  | none =>
    cases hstart : w.cmdStart p.startJob with
    | some e => rw [Start_launch_fails h hprep hstart]
    | none => rw [Start_succeeds h hprep hstart]

/-- A new provider reads back the working directory it published. -/
theorem WorkingDir_of_new {d : Int} {c : rsyncConfig} {p : rsyncProvider}
    (h : newRsyncProvider d c = Except.ok p) :
    p.baseProvider.WorkingDir = c.workingDir := by
  rw [(newRsyncProvider_fields h).2.2.2.1]
  rfl

/-- A new provider reads back the log file it published. -/
theorem LogFile_of_new {d : Int} {c : rsyncConfig} {p : rsyncProvider}
    (h : newRsyncProvider d c = Except.ok p) :
    p.baseProvider.LogFile = c.logFile := by
  rw [(newRsyncProvider_fields h).2.2.2.1]
  rfl

/-- A new provider is idle. -/
theorem isRunning_of_new {d : Int} {c : rsyncConfig} {p : rsyncProvider}
    (h : newRsyncProvider d c = Except.ok p) :
    p.baseProvider.isRunning = false := by
  rw [(newRsyncProvider_fields h).2.2.2.1]

/-- The command vector of a provider built from `c`, in terms of `c`. -/
theorem startCommand_of_new {d : Int} {c : rsyncConfig} {p : rsyncProvider}
    (h : newRsyncProvider d c = Except.ok p) :
    p.startCommand =
      [if c.rsyncCmd = "" then "rsync" else c.rsyncCmd] ++ p.options
        ++ [c.upstreamURL, c.workingDir] := by
  have hc := (newRsyncProvider_fields h).2.2.1
  simp [rsyncProvider.startCommand, hc, WorkingDir_of_new h]

/-! ## C4: credentials and the command vector -/

/-- C4 as stated fails: with the username `rsync` and the default tool binary,
the first element of the command vector `Start` assembles is the (non-empty)
username. -/
theorem C4_credentials_counterexample :
    ∃ p job, newRsyncProvider 2 usernameIsToolConfig = Except.ok p ∧
      (p.Start allSucceed).p.baseProvider.cmd = some job ∧
      usernameIsToolConfig.username ≠ "" ∧
      job.cmd.head? = some usernameIsToolConfig.username ∧
      usernameIsToolConfig.username ∈ job.cmd :=
  ⟨_, _, rfl, rfl, by decide, rfl, by decide⟩

/-- C4, amended: for a provider built from an accepted configuration, the
username (or password) is an element of the command vector `Start` assembles
exactly when it is equal to one of the strings the vector is built from: the
tool binary, a baseline flag, the family flag in use, `--exclude-from` or the
exclude file when one is set, an extra option, the upstream URL or the working
directory. A credential that is none of these is not in the command vector. -/
theorem C4_credentials_only_by_coincidence (defaultMaxRetry : Int) (c : rsyncConfig)
    (p : rsyncProvider) (w : Collaborators) (job : cmdJob)
    (h : newRsyncProvider defaultMaxRetry c = Except.ok p)
    (hjob : (p.Start w).p.baseProvider.cmd = some job) :
    ∀ s ∈ [c.username, c.password],
      (s ∈ job.cmd ↔
        s ∈ [if c.rsyncCmd = "" then "rsync" else c.rsyncCmd] ++ baselineOptions
          ++ (if c.useIPv6 = true then ["-6"] else if c.useIPv4 = true then ["-4"] else [])
          ++ (if c.excludeFile ≠ "" then ["--exclude-from", c.excludeFile] else [])
          ++ sliceElems c.extraOptions
          ++ [c.upstreamURL, c.workingDir]) := by
  intro s _
  rw [Start_idle_cmd (isRunning_of_new h)] at hjob
  injection hjob with hjob
  subst hjob
  show s ∈ p.startCommand ↔ _
  rw [startCommand_of_new h, (newRsyncProvider_fields h).2.1]
  simp only [List.append_assoc]

/-- C4 (amended) at a job whose password `s3cret` is none of the strings the
command vector is built from: it is not in the command vector. -/
theorem C4_credentials_only_by_coincidence_witness :
    ∃ p job, newRsyncProvider 2 usernameIsToolConfig = Except.ok p ∧
      (p.Start allSucceed).p.baseProvider.cmd = some job ∧
      usernameIsToolConfig.password = "s3cret" ∧ "s3cret" ∉ job.cmd := by
  obtain ⟨p, hp⟩ : ∃ p, newRsyncProvider 2 usernameIsToolConfig = Except.ok p := ⟨_, rfl⟩
  obtain ⟨job, hjob⟩ : ∃ job, (p.Start allSucceed).p.baseProvider.cmd = some job :=
    ⟨_, Start_idle_cmd (isRunning_of_new hp)⟩
  refine ⟨p, job, hp, hjob, rfl, fun hmem => ?_⟩
  exact absurd
    ((C4_credentials_only_by_coincidence 2 usernameIsToolConfig p allSucceed job hp hjob
      "s3cret" (by decide)).mp hmem) (by decide)

/-! ## C5: `Start` on a running provider -/

/-- C5: when the running flag is true, `Start` returns the already-running
error, returns the provider exactly as it was (running flag, stored command
handle, `dataSize`, option list and configuration), and calls no collaborator:
the log file is not prepared and the launcher is not invoked. Hence a second
`Start` right after a successful one fails and leaves the first launch as it
was. -/
theorem C5_Start_when_running (w : Collaborators) (p : rsyncProvider)
    (h : p.baseProvider.isRunning = true) :
    (p.Start w).err = some "provider is currently running" ∧
    (p.Start w).p = p ∧
    (p.Start w).events = [] ∧
    (∀ (q : rsyncProvider) (w1 w2 : Collaborators), (q.Start w1).err = none →
      ((q.Start w1).p.Start w2).err = some "provider is currently running" ∧
      ((q.Start w1).p.Start w2).p = (q.Start w1).p ∧
      ((q.Start w1).p.Start w2).events = []) := by
  refine ⟨by rw [Start_running h], by rw [Start_running h], by rw [Start_running h], ?_⟩
  · intro q w1 w2 hq
    have hrun : (q.Start w1).p.baseProvider.isRunning = true := by
      cases hi : q.baseProvider.isRunning with
      | true => rw [Start_running hi] at hq; cases hq
      | false =>
        cases hprep : w1.prepareLogFile q.baseProvider.LogFile false with
        | some e => rw [Start_prepare_fails hi hprep] at hq; cases hq
        | none =>
          cases hstart : w1.cmdStart q.startJob with
          | some e => rw [Start_launch_fails hi hprep hstart] at hq; cases hq
          | none => rw [Start_succeeds hi hprep hstart]
    rw [Start_running hrun]
    exact ⟨rfl, rfl, rfl⟩

/-- C5 at the example provider: after a first successful `Start`, a second
`Start` fails, changes nothing and calls nothing. -/
theorem C5_Start_when_running_witness :
    ∃ p, newRsyncProvider 2 exampleConfig = Except.ok p ∧
      ((p.Start allSucceed).p.Start allSucceed).err = some "provider is currently running" ∧
      ((p.Start allSucceed).p.Start allSucceed).p = (p.Start allSucceed).p ∧
      ((p.Start allSucceed).p.Start allSucceed).events = [] := by
  obtain ⟨p, hp⟩ : ∃ p, newRsyncProvider 2 exampleConfig = Except.ok p := ⟨_, rfl⟩
  have hrun : (p.Start allSucceed).p.baseProvider.isRunning = true := by
    rw [Start_succeeds (isRunning_of_new hp) rfl rfl]
  have h := C5_Start_when_running allSucceed (p.Start allSucceed).p hrun
  exact ⟨p, hp, h.1, h.2.1, h.2.2.1⟩

/-! ## Lemmas on `Run` -/

/-- What `Start` leaves alone, whatever the collaborators answer. -/
theorem Start_frame (w : Collaborators) (p : rsyncProvider) :
    (p.Start w).p.rsyncConfig = p.rsyncConfig ∧
    (p.Start w).p.options = p.options ∧
    (p.Start w).p.dataSize = p.dataSize ∧
    (p.Start w).p.baseProvider.ctx = p.baseProvider.ctx := by
  cases hi : p.baseProvider.isRunning with
  | true => rw [Start_running hi]; exact ⟨rfl, rfl, rfl, rfl⟩
  | false =>
    cases hprep : w.prepareLogFile p.baseProvider.LogFile false with
    | some e => rw [Start_prepare_fails hi hprep]; exact ⟨rfl, rfl, rfl, rfl⟩
    | none =>
      cases hstart : w.cmdStart p.startJob with
      | some e => rw [Start_launch_fails hi hprep hstart]; exact ⟨rfl, rfl, rfl, rfl⟩
      | none => rw [Start_succeeds hi hprep hstart]; exact ⟨rfl, rfl, rfl, rfl⟩

/-- `Run` on a provider that is already running. -/
theorem Run_running {w : Collaborators} {p : rsyncProvider}
    (h : p.baseProvider.isRunning = true) :
    p.Run w = ⟨some "provider is currently running", { p with dataSize := "" }, []⟩ := by
  have hs := Start_running (w := w) (p := { p with dataSize := "" }) h
  simp only [rsyncProvider.Run, hs]

/-- `Run` when the log file cannot be prepared. -/
theorem Run_prepare_fails {w : Collaborators} {p : rsyncProvider} {e : GoError}
    (h : p.baseProvider.isRunning = false)
    (hprep : w.prepareLogFile p.baseProvider.LogFile false = some e) :
    p.Run w =
      ⟨some e,
        { p with dataSize := "", baseProvider := { p.baseProvider with cmd := some p.startJob } },
        [Event.prepareLogFile p.baseProvider.LogFile false]⟩ := by
  have hs := Start_prepare_fails (w := w) (p := { p with dataSize := "" }) h hprep
  simp only [rsyncProvider.Run, hs]
  rfl

/-- `Run` when the process cannot be launched. -/
theorem Run_launch_fails {w : Collaborators} {p : rsyncProvider} {e : GoError}
    (h : p.baseProvider.isRunning = false)
    (hprep : w.prepareLogFile p.baseProvider.LogFile false = none)
    (hstart : w.cmdStart p.startJob = some e) :
    p.Run w =
      ⟨some e,
        { p with dataSize := "", baseProvider := { p.baseProvider with cmd := some p.startJob } },
        [Event.prepareLogFile p.baseProvider.LogFile false, Event.cmdStart p.startJob]⟩ := by
  have hs := Start_launch_fails (w := w) (p := { p with dataSize := "" }) h hprep hstart
  simp only [rsyncProvider.Run, hs]
  rfl

/-- `Run` when the process was launched and waiting on it fails. -/
theorem Run_wait_fails {w : Collaborators} {p : rsyncProvider} {e : GoError}
    (h : p.baseProvider.isRunning = false)
    (hprep : w.prepareLogFile p.baseProvider.LogFile false = none)
    (hstart : w.cmdStart p.startJob = none)
    (hwait : w.cmdWait (some p.startJob) = some e) :
    p.Run w =
      ⟨some e,
        { p with
          dataSize := "",
          baseProvider := { p.baseProvider with cmd := some p.startJob, isRunning := false } },
        [Event.prepareLogFile p.baseProvider.LogFile false, Event.cmdStart p.startJob,
          Event.cmdWait (some p.startJob)]⟩ := by
  have hs := Start_succeeds (w := w) (p := { p with dataSize := "" }) h hprep hstart
  have hw : w.cmdWait (some ({ p with dataSize := "" } : rsyncProvider).startJob) = some e :=
    hwait
  simp only [rsyncProvider.Run, hs, baseProvider.Wait, hw]
  rfl

/-- `Run` when the process ran and the log file cannot be read back. -/
theorem Run_read_fails {w : Collaborators} {p : rsyncProvider} {e : GoError}
    (h : p.baseProvider.isRunning = false)
    (hprep : w.prepareLogFile p.baseProvider.LogFile false = none)
    (hstart : w.cmdStart p.startJob = none)
    (hwait : w.cmdWait (some p.startJob) = none)
    (hread : w.ReadFile p.baseProvider.LogFile = Except.error e) :
    p.Run w =
      ⟨none,
        { p with
          dataSize := "",
          baseProvider := { p.baseProvider with cmd := some p.startJob, isRunning := false } },
        [Event.prepareLogFile p.baseProvider.LogFile false, Event.cmdStart p.startJob,
          Event.cmdWait (some p.startJob), Event.ReadFile p.baseProvider.LogFile]⟩ := by
  have hs := Start_succeeds (w := w) (p := { p with dataSize := "" }) h hprep hstart
  have hw : w.cmdWait (some ({ p with dataSize := "" } : rsyncProvider).startJob) = none :=
    hwait
  have hr : w.ReadFile
      (baseProvider.LogFile
        { p.baseProvider with
          cmd := some ({ p with dataSize := "" } : rsyncProvider).startJob,
          isRunning := false }) = Except.error e := hread
  simp only [rsyncProvider.Run, hs, baseProvider.Wait, hw, hr]
  rfl

/-- `Run` when every step succeeds. -/
theorem Run_succeeds {w : Collaborators} {p : rsyncProvider} {logContent : Bytes}
    (h : p.baseProvider.isRunning = false)
    (hprep : w.prepareLogFile p.baseProvider.LogFile false = none)
    (hstart : w.cmdStart p.startJob = none)
    (hwait : w.cmdWait (some p.startJob) = none)
    (hread : w.ReadFile p.baseProvider.LogFile = Except.ok logContent) :
    p.Run w =
      ⟨none,
        { p with
          dataSize := w.ExtractSizeFromRsyncLog logContent,
          baseProvider := { p.baseProvider with cmd := some p.startJob, isRunning := false } },
        [Event.prepareLogFile p.baseProvider.LogFile false, Event.cmdStart p.startJob,
          Event.cmdWait (some p.startJob), Event.ReadFile p.baseProvider.LogFile,
          Event.ExtractSizeFromRsyncLog logContent]⟩ := by
  have hs := Start_succeeds (w := w) (p := { p with dataSize := "" }) h hprep hstart
  have hw : w.cmdWait (some ({ p with dataSize := "" } : rsyncProvider).startJob) = none :=
    hwait
  have hr : w.ReadFile
      (baseProvider.LogFile
        { p.baseProvider with
          cmd := some ({ p with dataSize := "" } : rsyncProvider).startJob,
          isRunning := false }) = Except.ok logContent := hread
  simp only [rsyncProvider.Run, hs, baseProvider.Wait, hw, hr]
  rfl

/-! ## C6: `dataSize` after a failed `Run` -/

/-- C6: whatever `dataSize` was before and whatever state the provider is in,
if `Run` returns an error (from `Start` or from `Wait`) then `DataSize()` is the
empty string afterwards. -/
theorem C6_Run_error_clears_dataSize (w : Collaborators) (p : rsyncProvider) (e : GoError)
    (h : (p.Run w).err = some e) :
    (p.Run w).p.DataSize = "" := by
  cases hi : p.baseProvider.isRunning with
  | true => rw [Run_running hi]; rfl
  | false =>
    cases hprep : w.prepareLogFile p.baseProvider.LogFile false with
    | some e1 => rw [Run_prepare_fails hi hprep]; rfl
    | none =>
      cases hstart : w.cmdStart p.startJob with
      | some e1 => rw [Run_launch_fails hi hprep hstart]; rfl
      | none =>
        cases hwait : w.cmdWait (some p.startJob) with
        | some e1 => rw [Run_wait_fails hi hprep hstart hwait]; rfl
        | none =>
          cases hread : w.ReadFile p.baseProvider.LogFile with
          | error e1 => rw [Run_read_fails hi hprep hstart hwait hread]; rfl
          | ok content => rw [Run_succeeds hi hprep hstart hwait hread] at h; cases h

/-- C6 at the example provider holding `9.9G` from an earlier run, when the
process exits with a failure. -/
theorem C6_Run_error_clears_dataSize_witness :
    ∃ p, newRsyncProvider 2 exampleConfig = Except.ok p ∧
      (({ p with dataSize := "9.9G" } : rsyncProvider).Run waitFails).err =
        some "exit status 23" ∧
      (({ p with dataSize := "9.9G" } : rsyncProvider).Run waitFails).p.DataSize = "" := by
  obtain ⟨p, hp⟩ : ∃ p, newRsyncProvider 2 exampleConfig = Except.ok p := ⟨_, rfl⟩
  have hi : ({ p with dataSize := "9.9G" } : rsyncProvider).baseProvider.isRunning = false :=
    (isRunning_of_new hp : p.baseProvider.isRunning = false)
  have he : (({ p with dataSize := "9.9G" } : rsyncProvider).Run waitFails).err =
      some "exit status 23" := by
    rw [Run_wait_fails (w := waitFails) (e := "exit status 23") hi rfl rfl rfl]
  exact ⟨p, hp, he, C6_Run_error_clears_dataSize waitFails _ _ he⟩

/-! ## C7: an unreadable log file -/

/-- C7: on an idle provider, when preparing the log file, launching and
waiting all succeed and reading the log file fails, `Run` returns nil and
`DataSize()` is the empty string; the read error is not returned and the size
extractor is not called. -/
theorem C7_Run_unreadable_log (w : Collaborators) (p : rsyncProvider) (e : GoError)
    (hidle : p.baseProvider.isRunning = false)
    (hprep : w.prepareLogFile p.baseProvider.LogFile false = none)
    (hstart : w.cmdStart p.startJob = none)
    (hwait : w.cmdWait (some p.startJob) = none)
    (hread : w.ReadFile p.baseProvider.LogFile = Except.error e) :
    (p.Run w).err = none ∧ (p.Run w).p.DataSize = "" ∧
    ∀ content, Event.ExtractSizeFromRsyncLog content ∉ (p.Run w).events := by
  rw [Run_read_fails hidle hprep hstart hwait hread]
  refine ⟨rfl, rfl, ?_⟩
  intro content hmem
  simp at hmem

/-- C7 at the example provider holding `9.9G` from an earlier run, with a log
file that cannot be read back. -/
theorem C7_Run_unreadable_log_witness :
    ∃ p, newRsyncProvider 2 exampleConfig = Except.ok p ∧
      (({ p with dataSize := "9.9G" } : rsyncProvider).Run readFails).err = none ∧
      (({ p with dataSize := "9.9G" } : rsyncProvider).Run readFails).p.DataSize = "" := by
  obtain ⟨p, hp⟩ : ∃ p, newRsyncProvider 2 exampleConfig = Except.ok p := ⟨_, rfl⟩
  have hi : ({ p with dataSize := "9.9G" } : rsyncProvider).baseProvider.isRunning = false :=
    (isRunning_of_new hp : p.baseProvider.isRunning = false)
  have h := C7_Run_unreadable_log readFails { p with dataSize := "9.9G" }
    "open: no such file" hi rfl rfl rfl rfl
  exact ⟨p, hp, h.1, h.2.1⟩

/-! ## C8: failures inside `Start` -/

/-- C8: on an idle provider, if preparing the log file fails then `Start`
returns that error, the running flag stays false and the launcher is not
invoked; if preparing succeeds and the launch fails then `Start` returns the
launch error and the running flag stays false. -/
theorem C8_Start_failures (w : Collaborators) (p : rsyncProvider)
    (hidle : p.baseProvider.isRunning = false) :
    (∀ e, w.prepareLogFile p.baseProvider.LogFile false = some e →
      (p.Start w).err = some e ∧
      (p.Start w).p.baseProvider.isRunning = false ∧
      ∀ job, Event.cmdStart job ∉ (p.Start w).events) ∧
    (∀ e, w.prepareLogFile p.baseProvider.LogFile false = none →
      w.cmdStart p.startJob = some e →
      (p.Start w).err = some e ∧
      (p.Start w).p.baseProvider.isRunning = false) := by
  constructor
  · intro e hprep
    rw [Start_prepare_fails hidle hprep]
    refine ⟨rfl, hidle, ?_⟩
    intro job hmem
    simp at hmem
  · intro e hprep hstart
    rw [Start_launch_fails hidle hprep hstart]
    exact ⟨rfl, hidle⟩

/-- C8 at the example provider: once with a log file that cannot be opened,
once with a launch that fails. -/
theorem C8_Start_failures_witness :
    ∃ p, newRsyncProvider 2 exampleConfig = Except.ok p ∧
      (p.Start logOpenFails).err = some "open: permission denied" ∧
      (p.Start logOpenFails).p.baseProvider.isRunning = false ∧
      (p.Start logOpenFails).events =
        [Event.prepareLogFile "/var/log/tunasync/debian.log" false] ∧
      (p.Start launchFails).err = some "exec: rsync: not found" ∧
      (p.Start launchFails).p.baseProvider.isRunning = false := by
  obtain ⟨p, hp⟩ : ∃ p, newRsyncProvider 2 exampleConfig = Except.ok p := ⟨_, rfl⟩
  have h1 := (C8_Start_failures logOpenFails p (isRunning_of_new hp)).1 _ rfl
  have h2 := (C8_Start_failures launchFails p (isRunning_of_new hp)).2 _ rfl rfl
  refine ⟨p, hp, h1.1, h1.2.1, ?_, h2.1, h2.2⟩
  rw [Start_prepare_fails (isRunning_of_new hp) rfl, LogFile_of_new hp]
  rfl

/-! ## C9: the command vector -/

/-- C9: `Start` on an idle provider hands the launcher the command vector made
of the tool binary, the option list, the upstream URL and the working
directory, in that order. For a provider built from the accepted configuration
`c` these are `rsync` or the configured binary, the option list built at
construction, `c.upstreamURL` and `c.workingDir`; and for the URL
`rsync://host/mod/`, no exclude file, the extra option `--bwlimit=1000` and no
family preference the vector ends with `--safe-links --timeout=120
--contimeout=120 --bwlimit=1000 rsync://host/mod/ <workdir>`. -/
theorem C9_command_vector (defaultMaxRetry : Int) (c : rsyncConfig) (p : rsyncProvider)
    (w : Collaborators) (h : newRsyncProvider defaultMaxRetry c = Except.ok p) :
    (∀ q : rsyncProvider, q.baseProvider.isRunning = false →
      ∃ job, (q.Start w).p.baseProvider.cmd = some job ∧
        job.cmd = [q.rsyncConfig.rsyncCmd] ++ q.options
          ++ [q.Upstream, q.baseProvider.WorkingDir] ∧
        (w.prepareLogFile q.baseProvider.LogFile false = none →
          Event.cmdStart job ∈ (q.Start w).events)) ∧
    (∃ job, (p.Start w).p.baseProvider.cmd = some job ∧
      job.cmd = [if c.rsyncCmd = "" then "rsync" else c.rsyncCmd] ++ p.options
        ++ [c.upstreamURL, c.workingDir] ∧
      (c.upstreamURL = "rsync://host/mod/" → c.excludeFile = "" →
        c.extraOptions = some ["--bwlimit=1000"] → c.useIPv6 = false → c.useIPv4 = false →
        [ "--safe-links", "--timeout=120", "--contimeout=120", "--bwlimit=1000",
          "rsync://host/mod/", c.workingDir ] <:+ job.cmd)) := by
  constructor
  · intro q hq
    refine ⟨q.startJob, Start_idle_cmd hq, rfl, fun hprep => ?_⟩
    cases hstart : w.cmdStart q.startJob with
    | some e => rw [Start_launch_fails hq hprep hstart]; simp
    | none => rw [Start_succeeds hq hprep hstart]; simp
  · refine ⟨p.startJob, Start_idle_cmd (isRunning_of_new h), startCommand_of_new h, ?_⟩
    intro hu hx he h6 h4
    show _ <:+ p.startCommand
    rw [startCommand_of_new h, (newRsyncProvider_fields h).2.1, hu, hx, he, h6, h4]
    refine ⟨[if c.rsyncCmd = "" then "rsync" else c.rsyncCmd] ++ baselineOptions.take 9, ?_⟩
    simp [baselineOptions, sliceElems]

/-- C9 at the example configuration: the whole command vector. -/
theorem C9_command_vector_witness :
    ∃ p job, newRsyncProvider 2 exampleConfig = Except.ok p ∧
      (p.Start allSucceed).p.baseProvider.cmd = some job ∧
      job.cmd =
        [ "rsync", "-aHvh", "--no-o", "--no-g", "--stats", "--exclude", ".~tmp~/", "--delete",
          "--delete-after", "--delay-updates", "--safe-links", "--timeout=120",
          "--contimeout=120", "--bwlimit=1000", "rsync://host/mod/", "/srv/mirror/debian" ] := by
  obtain ⟨p, hp⟩ : ∃ p, newRsyncProvider 2 exampleConfig = Except.ok p := ⟨_, rfl⟩
  obtain ⟨job, hjob, hcmd, _⟩ := (C9_command_vector 2 exampleConfig p allSucceed hp).2
  refine ⟨p, job, hp, hjob, ?_⟩
  rw [hcmd, (newRsyncProvider_fields hp).2.1]
  decide

/-! ## C10: the environment map -/

/-- The environment map in terms of lookups. -/
theorem startEnv_get (p : rsyncProvider) :
    p.startEnv.get "USER" =
      (if p.rsyncConfig.username ≠ "" then some p.rsyncConfig.username else none) ∧
    p.startEnv.get "RSYNC_PASSWORD" =
      (if p.rsyncConfig.password ≠ "" then some p.rsyncConfig.password else none) ∧
    ∀ k, k ≠ "USER" → k ≠ "RSYNC_PASSWORD" → p.startEnv.get k = none := by
  have hne : ("USER" != "RSYNC_PASSWORD") = true := by decide
  have hne2 : ("RSYNC_PASSWORD" == "USER") = false := by decide
  have hne3 : ("USER" == "RSYNC_PASSWORD") = false := by decide
  by_cases hu : p.rsyncConfig.username = "" <;> by_cases hp : p.rsyncConfig.password = "" <;>
    simp [rsyncProvider.startEnv, GoMap.set, GoMap.get, List.lookup, hu, hp, hne, hne2, hne3]
  all_goals
    intro k h1 h2
    have e1 : (k == "USER") = false := beq_eq_false_iff_ne.mpr h1
    have e2 : (k == "RSYNC_PASSWORD") = false := beq_eq_false_iff_ne.mpr h2
    simp [e1, e2]

/-- C10: the environment map `Start` on an idle provider hands to the launcher
binds `USER` to the username exactly when the username is not empty, binds
`RSYNC_PASSWORD` to the password exactly when the password is not empty, and
binds no other key. -/
theorem C10_environment_map (w : Collaborators) (p : rsyncProvider)
    (hidle : p.baseProvider.isRunning = false) :
    ∃ job, (p.Start w).p.baseProvider.cmd = some job ∧
      (w.prepareLogFile p.baseProvider.LogFile false = none →
        Event.cmdStart job ∈ (p.Start w).events) ∧
      job.env.get "USER" =
        (if p.rsyncConfig.username ≠ "" then some p.rsyncConfig.username else none) ∧
      job.env.get "RSYNC_PASSWORD" =
        (if p.rsyncConfig.password ≠ "" then some p.rsyncConfig.password else none) ∧
      ∀ k, k ≠ "USER" → k ≠ "RSYNC_PASSWORD" → job.env.get k = none := by
  refine ⟨p.startJob, Start_idle_cmd hidle, fun hprep => ?_, startEnv_get p⟩
  cases hstart : w.cmdStart p.startJob with
  | some e => rw [Start_launch_fails hidle hprep hstart]; simp
  | none => rw [Start_succeeds hidle hprep hstart]; simp

/-- C10 at a job with both credentials and at the example job, which has
none. -/
theorem C10_environment_map_witness :
    (∃ p job, newRsyncProvider 2 credentialsConfig = Except.ok p ∧
      (p.Start allSucceed).p.baseProvider.cmd = some job ∧
      job.env.get "USER" = some "mirror" ∧ job.env.get "RSYNC_PASSWORD" = some "s3cret" ∧
      job.env.get "HOME" = none) ∧
    (∃ p job, newRsyncProvider 2 exampleConfig = Except.ok p ∧
      (p.Start allSucceed).p.baseProvider.cmd = some job ∧
      job.env.get "USER" = none ∧ job.env.get "RSYNC_PASSWORD" = none) := by
  constructor
  · obtain ⟨p, hp⟩ : ∃ p, newRsyncProvider 2 credentialsConfig = Except.ok p := ⟨_, rfl⟩
    obtain ⟨job, hjob, _, hu, hpw, hk⟩ :=
      C10_environment_map allSucceed p (isRunning_of_new hp)
    have hc := (newRsyncProvider_fields hp).2.2.1
    rw [hc] at hu hpw
    exact ⟨p, job, hp, hjob, hu, hpw, hk "HOME" (by decide) (by decide)⟩
  · obtain ⟨p, hp⟩ : ∃ p, newRsyncProvider 2 exampleConfig = Except.ok p := ⟨_, rfl⟩
    obtain ⟨job, hjob, _, hu, hpw, _⟩ :=
      C10_environment_map allSucceed p (isRunning_of_new hp)
    have hc := (newRsyncProvider_fields hp).2.2.1
    rw [hc] at hu hpw
    exact ⟨p, job, hp, hjob, hu, hpw⟩

/-! ## C11: defaults filled in by the constructor -/

/-- C11: the provider built from an accepted configuration has the tool binary
`rsync` when `rsyncCmd` is empty and the configured one otherwise; its retry
count, in the base provider and in the stored configuration, is
`defaultMaxRetry` when the configured retry is 0 and the configured retry
otherwise; the upstream URL, the credentials, the exclude file and the extra
options are stored as given. -/
theorem C11_constructor_defaults (defaultMaxRetry : Int) (c : rsyncConfig) (p : rsyncProvider)
    (h : newRsyncProvider defaultMaxRetry c = Except.ok p) :
    p.rsyncConfig.rsyncCmd = (if c.rsyncCmd = "" then "rsync" else c.rsyncCmd) ∧
    p.baseProvider.retry = (if c.retry = 0 then defaultMaxRetry else c.retry) ∧
    p.rsyncConfig.retry = (if c.retry = 0 then defaultMaxRetry else c.retry) ∧
    p.rsyncConfig.upstreamURL = c.upstreamURL ∧
    p.rsyncConfig.username = c.username ∧
    p.rsyncConfig.password = c.password ∧
    p.rsyncConfig.excludeFile = c.excludeFile ∧
    p.rsyncConfig.extraOptions = c.extraOptions := by
  obtain ⟨_, _, hc, hb, _⟩ := newRsyncProvider_fields h
  rw [hc, hb]
  exact ⟨rfl, rfl, rfl, rfl, rfl, rfl, rfl, rfl⟩

/-- C11 at the example configuration (empty tool binary, retry 0, default 2)
and at one with its own tool binary and retry count 5. -/
theorem C11_constructor_defaults_witness :
    (∃ p, newRsyncProvider 2 exampleConfig = Except.ok p ∧
      p.rsyncConfig.rsyncCmd = "rsync" ∧ p.baseProvider.retry = 2 ∧ p.rsyncConfig.retry = 2) ∧
    (∃ p, newRsyncProvider 2 customToolConfig = Except.ok p ∧
      p.rsyncConfig.rsyncCmd = "/usr/local/bin/rsync" ∧ p.baseProvider.retry = 5 ∧
      p.rsyncConfig.retry = 5) := by
  constructor
  · obtain ⟨p, hp⟩ : ∃ p, newRsyncProvider 2 exampleConfig = Except.ok p := ⟨_, rfl⟩
    have h := C11_constructor_defaults 2 exampleConfig p hp
    exact ⟨p, hp, h.1, h.2.1, h.2.2.1⟩
  · obtain ⟨p, hp⟩ : ∃ p, newRsyncProvider 2 customToolConfig = Except.ok p := ⟨_, rfl⟩
    have h := C11_constructor_defaults 2 customToolConfig p hp
    exact ⟨p, hp, h.1, h.2.1, h.2.2.1⟩

/-! ## C12: the state after `Run` -/

/-- The running flag after `Run` on an idle provider. -/
theorem Run_idle_isRunning (w : Collaborators) (p : rsyncProvider)
    (hidle : p.baseProvider.isRunning = false) :
    (p.Run w).p.baseProvider.isRunning = false := by
  cases hprep : w.prepareLogFile p.baseProvider.LogFile false with
  | some e1 => rw [Run_prepare_fails hidle hprep]; exact hidle
  | none =>
    cases hstart : w.cmdStart p.startJob with
    | some e1 => rw [Run_launch_fails hidle hprep hstart]; exact hidle
    | none =>
      cases hwait : w.cmdWait (some p.startJob) with
      | some e1 => rw [Run_wait_fails hidle hprep hstart hwait]
      | none =>
        cases hread : w.ReadFile p.baseProvider.LogFile with
        | error e1 => rw [Run_read_fails hidle hprep hstart hwait hread]
        | ok content => rw [Run_succeeds hidle hprep hstart hwait hread]

/-- The first thing `Run` does on an idle provider is to prepare the log file. -/
theorem Run_idle_events (w : Collaborators) (p : rsyncProvider)
    (hidle : p.baseProvider.isRunning = false) :
    (p.Run w).events.head? = some (Event.prepareLogFile p.baseProvider.LogFile false) := by
  cases hprep : w.prepareLogFile p.baseProvider.LogFile false with
  | some e1 => rw [Run_prepare_fails hidle hprep]; rfl
  | none =>
    cases hstart : w.cmdStart p.startJob with
    | some e1 => rw [Run_launch_fails hidle hprep hstart]; rfl
    | none =>
      cases hwait : w.cmdWait (some p.startJob) with
      | some e1 => rw [Run_wait_fails hidle hprep hstart hwait]; rfl
      | none =>
        cases hread : w.ReadFile p.baseProvider.LogFile with
        | error e1 => rw [Run_read_fails hidle hprep hstart hwait hread]; rfl
        | ok content => rw [Run_succeeds hidle hprep hstart hwait hread]; rfl

/-- C12: a `Run` that is not rejected at the running check, that is a `Run` on
an idle provider, leaves the running flag false whether it returns nil, the
log-preparation or launch error, or the error of waiting on the process; so
the next `Run` on the provider it leaves passes the running check (it goes on
to prepare the log file) and again leaves the flag false. -/
theorem C12_Run_returns_to_idle (w w2 : Collaborators) (p : rsyncProvider)
    (hidle : p.baseProvider.isRunning = false) :
    (p.Run w).p.baseProvider.isRunning = false ∧
    ((p.Run w).p.Run w2).events.head? =
      some (Event.prepareLogFile (p.Run w).p.baseProvider.LogFile false) ∧
    ((p.Run w).p.Run w2).p.baseProvider.isRunning = false := by
  have h1 := Run_idle_isRunning w p hidle
  exact ⟨h1, Run_idle_events w2 _ h1, Run_idle_isRunning w2 _ h1⟩

/-- C12 at the example provider: a `Run` whose process exits with a failure
returns that error and leaves the provider idle, and the `Run` after it
succeeds. -/
theorem C12_Run_returns_to_idle_witness :
    ∃ p, newRsyncProvider 2 exampleConfig = Except.ok p ∧
      (p.Run waitFails).err = some "exit status 23" ∧
      (p.Run waitFails).p.baseProvider.isRunning = false ∧
      ((p.Run waitFails).p.Run allSucceed).err = none ∧
      ((p.Run waitFails).p.Run allSucceed).p.baseProvider.isRunning = false := by
  obtain ⟨p, hp⟩ : ∃ p, newRsyncProvider 2 exampleConfig = Except.ok p := ⟨_, rfl⟩
  have h := C12_Run_returns_to_idle waitFails allSucceed p (isRunning_of_new hp)
  refine ⟨p, hp, ?_, h.1, ?_, h.2.2⟩
  · rw [Run_wait_fails (w := waitFails) (e := "exit status 23") (isRunning_of_new hp)
      rfl rfl rfl]
  · rw [Run_succeeds (w := allSucceed) h.1 rfl rfl rfl rfl]

/-! ## C14: when `Start` sets the running flag -/

/-- C14: on an idle provider, when preparing the log file and launching both
succeed, `Start` returns nil and the running flag is true afterwards; a `Start`
that returns an error leaves the flag as it was; and when `Start` turns the
flag from false to true, preparing and launching both succeeded and `Start`
returned nil. -/
theorem C14_Start_sets_running (w : Collaborators) (p : rsyncProvider) :
    (p.baseProvider.isRunning = false →
      w.prepareLogFile p.baseProvider.LogFile false = none →
      w.cmdStart p.startJob = none →
      (p.Start w).err = none ∧ (p.Start w).p.baseProvider.isRunning = true) ∧
    (∀ e, (p.Start w).err = some e →
      (p.Start w).p.baseProvider.isRunning = p.baseProvider.isRunning) ∧
    (p.baseProvider.isRunning = false → (p.Start w).p.baseProvider.isRunning = true →
      w.prepareLogFile p.baseProvider.LogFile false = none ∧
      w.cmdStart p.startJob = none ∧ (p.Start w).err = none) := by
  refine ⟨fun hi hprep hstart => ?_, fun e he => ?_, fun hi ht => ?_⟩
  · rw [Start_succeeds hi hprep hstart]
    exact ⟨rfl, rfl⟩
  · cases hi : p.baseProvider.isRunning with
    | true => rw [Start_running hi]; exact hi
    | false =>
      cases hprep : w.prepareLogFile p.baseProvider.LogFile false with
      | some e1 => rw [Start_prepare_fails hi hprep]; exact hi
      | none =>
        cases hstart : w.cmdStart p.startJob with
        | some e1 => rw [Start_launch_fails hi hprep hstart]; exact hi
        | none => rw [Start_succeeds hi hprep hstart] at he; cases he
  · cases hprep : w.prepareLogFile p.baseProvider.LogFile false with
    | some e1 =>
      rw [Start_prepare_fails hi hprep] at ht
      exact absurd (hi.symm.trans ht) (by decide)
    | none =>
      cases hstart : w.cmdStart p.startJob with
      | some e1 =>
        rw [Start_launch_fails hi hprep hstart] at ht
        exact absurd (hi.symm.trans ht) (by decide)
      | none =>
        rw [Start_succeeds hi hprep hstart]
        exact ⟨rfl, rfl, rfl⟩

/-- C14 at the example provider: a successful `Start` sets the flag, a `Start`
whose launch fails leaves it false, and a `Start` on the running provider
leaves it true. -/
theorem C14_Start_sets_running_witness :
    ∃ p, newRsyncProvider 2 exampleConfig = Except.ok p ∧
      (p.Start allSucceed).err = none ∧
      (p.Start allSucceed).p.baseProvider.isRunning = true ∧
      (p.Start launchFails).p.baseProvider.isRunning = false ∧
      ((p.Start allSucceed).p.Start allSucceed).p.baseProvider.isRunning = true := by
  obtain ⟨p, hp⟩ : ∃ p, newRsyncProvider 2 exampleConfig = Except.ok p := ⟨_, rfl⟩
  have hi := isRunning_of_new hp
  have h1 := (C14_Start_sets_running allSucceed p).1 hi rfl rfl
  have h2 := (C14_Start_sets_running launchFails p).2.1 "exec: rsync: not found"
    (by rw [Start_launch_fails hi rfl rfl])
  have h3 := (C14_Start_sets_running allSucceed (p.Start allSucceed).p).2.1
    "provider is currently running" (by rw [Start_running h1.2])
  exact ⟨p, hp, h1.1, h1.2, h2.trans hi, h3.trans h1.2⟩

/-! ## C15: `Run` hands on the error of `Start` or of `Wait` -/

/-- The events of `Start` are a log-file preparation and a launch, nothing
else. -/
theorem Start_events_kind (w : Collaborators) (p : rsyncProvider) :
    ∀ ev ∈ (p.Start w).events,
      (∃ f a, ev = Event.prepareLogFile f a) ∨ (∃ job, ev = Event.cmdStart job) := by
  intro ev hev
  cases hi : p.baseProvider.isRunning with
  | true => rw [Start_running hi] at hev; simp at hev
  | false =>
    cases hprep : w.prepareLogFile p.baseProvider.LogFile false with
    | some e =>
      rw [Start_prepare_fails hi hprep] at hev
      simp only [List.mem_singleton] at hev
      exact Or.inl ⟨_, _, hev⟩
    | none =>
      have hmem : ev ∈ [Event.prepareLogFile p.baseProvider.LogFile false,
          Event.cmdStart p.startJob] := by
        cases hstart : w.cmdStart p.startJob with
        | some e => rw [Start_launch_fails hi hprep hstart] at hev; exact hev
        | none => rw [Start_succeeds hi hprep hstart] at hev; exact hev
      simp only [List.mem_cons, List.mem_singleton, List.not_mem_nil, or_false] at hmem
      rcases hmem with h | h
      · exact Or.inl ⟨_, _, h⟩
      · exact Or.inr ⟨_, h⟩

/-- C15: `Run` calls `Start` on the provider with `dataSize` cleared. If that
`Start` returns an error, `Run` returns the same error and its events are those
of `Start`: no wait on the process, no read of the log file, no call of the
size extractor. If that `Start` returns nil and `Wait` returns an error, `Run`
returns the error of `Wait` and neither reads the log file nor calls the size
extractor. -/
theorem C15_Run_propagates_errors (w : Collaborators) (p : rsyncProvider) :
    (∀ e, (rsyncProvider.Start w { p with dataSize := "" }).err = some e →
      (p.Run w).err = some e ∧
      (p.Run w).events = (rsyncProvider.Start w { p with dataSize := "" }).events ∧
      (∀ job, Event.cmdWait job ∉ (p.Run w).events) ∧
      (∀ path, Event.ReadFile path ∉ (p.Run w).events) ∧
      (∀ content, Event.ExtractSizeFromRsyncLog content ∉ (p.Run w).events)) ∧
    ((rsyncProvider.Start w { p with dataSize := "" }).err = none →
      ∀ e,
        (baseProvider.Wait w
          (rsyncProvider.Start w { p with dataSize := "" }).p.baseProvider).2.1 = some e →
        (p.Run w).err = some e ∧
        (∀ path, Event.ReadFile path ∉ (p.Run w).events) ∧
        (∀ content, Event.ExtractSizeFromRsyncLog content ∉ (p.Run w).events)) := by
  constructor
  · intro e he
    have hrun : p.Run w =
        ⟨some e, (rsyncProvider.Start w { p with dataSize := "" }).p,
          (rsyncProvider.Start w { p with dataSize := "" }).events⟩ := by
      simp only [rsyncProvider.Run, he]
    rw [hrun]
    refine ⟨rfl, rfl, ?_, ?_, ?_⟩
    · intro job hmem
      rcases Start_events_kind w _ _ hmem with ⟨f, a, h⟩ | ⟨j, h⟩ <;> cases h
    · intro path hmem
      rcases Start_events_kind w _ _ hmem with ⟨f, a, h⟩ | ⟨j, h⟩ <;> cases h
    · intro content hmem
      rcases Start_events_kind w _ _ hmem with ⟨f, a, h⟩ | ⟨j, h⟩ <;> cases h
  · intro hs e hw
    simp only [baseProvider.Wait] at hw
    have hrun : (p.Run w).err = some e ∧
        (p.Run w).events =
          (rsyncProvider.Start w { p with dataSize := "" }).events ++
            [Event.cmdWait
              (rsyncProvider.Start w { p with dataSize := "" }).p.baseProvider.cmd] := by
      constructor <;> simp only [rsyncProvider.Run, hs, baseProvider.Wait, hw]
    refine ⟨hrun.1, ?_, ?_⟩
    · intro path hmem
      rw [hrun.2, List.mem_append] at hmem
      rcases hmem with hmem | hmem
      · rcases Start_events_kind w _ _ hmem with ⟨f, a, h⟩ | ⟨j, h⟩ <;> cases h
      · simp at hmem
    · intro content hmem
      rw [hrun.2, List.mem_append] at hmem
      rcases hmem with hmem | hmem
      · rcases Start_events_kind w _ _ hmem with ⟨f, a, h⟩ | ⟨j, h⟩ <;> cases h
      · simp at hmem

/-- C15 at the example provider: with a launch that fails `Run` returns the
launch error after preparing the log file and trying the launch only; with a
process that exits with a failure `Run` returns that error. -/
theorem C15_Run_propagates_errors_witness :
    ∃ p, newRsyncProvider 2 exampleConfig = Except.ok p ∧
      (p.Run launchFails).err = some "exec: rsync: not found" ∧
      (p.Run launchFails).events =
        [Event.prepareLogFile p.baseProvider.LogFile false, Event.cmdStart p.startJob] ∧
      (p.Run waitFails).err = some "exit status 23" ∧
      (∀ path, Event.ReadFile path ∉ (p.Run waitFails).events) := by
  obtain ⟨p, hp⟩ : ∃ p, newRsyncProvider 2 exampleConfig = Except.ok p := ⟨_, rfl⟩
  have hi : ({ p with dataSize := "" } : rsyncProvider).baseProvider.isRunning = false :=
    (isRunning_of_new hp : p.baseProvider.isRunning = false)
  have h1 := (C15_Run_propagates_errors launchFails p).1 "exec: rsync: not found"
    (by rw [Start_launch_fails (w := launchFails) hi rfl rfl])
  have h2 := (C15_Run_propagates_errors waitFails p).2
    (by rw [Start_succeeds (w := waitFails) hi rfl rfl]) "exit status 23" rfl
  refine ⟨p, hp, h1.1, ?_, h2.1, h2.2.1⟩
  rw [h1.2.1, Start_launch_fails (w := launchFails) hi rfl rfl]
  rfl

/-! ## C16: `dataSize` after a successful `Run` -/

/-- C16: on an idle provider, when preparing the log file, launching, waiting
and reading the log file all succeed, `Run` returns nil and `DataSize()` is
afterwards the size extractor applied to the bytes just read from the log
file, whatever `dataSize` held before the run. -/
theorem C16_Run_sets_dataSize (w : Collaborators) (p : rsyncProvider) (logContent : Bytes)
    (hidle : p.baseProvider.isRunning = false)
    (hprep : w.prepareLogFile p.baseProvider.LogFile false = none)
    (hstart : w.cmdStart p.startJob = none)
    (hwait : w.cmdWait (some p.startJob) = none)
    (hread : w.ReadFile p.baseProvider.LogFile = Except.ok logContent) :
    (p.Run w).err = none ∧
    (p.Run w).p.DataSize = w.ExtractSizeFromRsyncLog logContent ∧
    ∀ previous : String,
      (rsyncProvider.Run w { p with dataSize := previous }).err = none ∧
      (rsyncProvider.Run w { p with dataSize := previous }).p.DataSize =
        w.ExtractSizeFromRsyncLog logContent := by
  refine ⟨?_, ?_, fun previous => ?_⟩
  · rw [Run_succeeds hidle hprep hstart hwait hread]
  · rw [Run_succeeds hidle hprep hstart hwait hread]
    rfl
  · have h := Run_succeeds (w := w) (p := { p with dataSize := previous }) hidle hprep hstart
      hwait hread
    rw [h]
    exact ⟨rfl, rfl⟩

/-- C16 at the example provider holding `9.9G` from an earlier run: after a
successful run `DataSize()` is what the extractor answers, `1.5G`. -/
theorem C16_Run_sets_dataSize_witness :
    ∃ p, newRsyncProvider 2 exampleConfig = Except.ok p ∧
      (rsyncProvider.Run allSucceed { p with dataSize := "9.9G" }).err = none ∧
      (rsyncProvider.Run allSucceed { p with dataSize := "9.9G" }).p.DataSize = "1.5G" := by
  obtain ⟨p, hp⟩ : ∃ p, newRsyncProvider 2 exampleConfig = Except.ok p := ⟨_, rfl⟩
  have h := (C16_Run_sets_dataSize allSucceed p [49, 46, 53] (isRunning_of_new hp)
    rfl rfl rfl rfl).2.2 "9.9G"
  exact ⟨p, hp, h.1, h.2⟩

/-! ## C17: what `Start` and `Run` never change -/

/-- What `Run` leaves alone, whatever the collaborators answer. -/
theorem Run_frame (w : Collaborators) (p : rsyncProvider) :
    (p.Run w).p.rsyncConfig = p.rsyncConfig ∧
    (p.Run w).p.options = p.options ∧
    (p.Run w).p.baseProvider.ctx = p.baseProvider.ctx := by
  cases hi : p.baseProvider.isRunning with
  | true => rw [Run_running hi]; exact ⟨rfl, rfl, rfl⟩
  | false =>
    cases hprep : w.prepareLogFile p.baseProvider.LogFile false with
    | some e1 => rw [Run_prepare_fails hi hprep]; exact ⟨rfl, rfl, rfl⟩
    | none =>
      cases hstart : w.cmdStart p.startJob with
      | some e1 => rw [Run_launch_fails hi hprep hstart]; exact ⟨rfl, rfl, rfl⟩
      | none =>
        cases hwait : w.cmdWait (some p.startJob) with
        | some e1 => rw [Run_wait_fails hi hprep hstart hwait]; exact ⟨rfl, rfl, rfl⟩
        | none =>
          cases hread : w.ReadFile p.baseProvider.LogFile with
          | error e1 => rw [Run_read_fails hi hprep hstart hwait hread]; exact ⟨rfl, rfl, rfl⟩
          | ok content => rw [Run_succeeds hi hprep hstart hwait hread]; exact ⟨rfl, rfl, rfl⟩

/-- C17: in every provider state and for every answer of the collaborators,
`Start` and `Run` leave the option list and the whole stored configuration as
they were, in particular the tool binary, the upstream URL, the credentials,
the exclude file and the extra options. The accessors `Type`, `Upstream` and
`DataSize` only read: each returns the tag or the field and assigns nothing, so
the provider after them is the provider before them. -/
theorem C17_configuration_is_frozen (w : Collaborators) (p : rsyncProvider) :
    ((p.Start w).p.options = p.options ∧ (p.Start w).p.rsyncConfig = p.rsyncConfig ∧
      (p.Start w).p.rsyncConfig.rsyncCmd = p.rsyncConfig.rsyncCmd ∧
      (p.Start w).p.rsyncConfig.upstreamURL = p.rsyncConfig.upstreamURL ∧
      (p.Start w).p.rsyncConfig.username = p.rsyncConfig.username ∧
      (p.Start w).p.rsyncConfig.password = p.rsyncConfig.password ∧
      (p.Start w).p.rsyncConfig.excludeFile = p.rsyncConfig.excludeFile ∧
      (p.Start w).p.rsyncConfig.extraOptions = p.rsyncConfig.extraOptions) ∧
    ((p.Run w).p.options = p.options ∧ (p.Run w).p.rsyncConfig = p.rsyncConfig ∧
      (p.Run w).p.rsyncConfig.rsyncCmd = p.rsyncConfig.rsyncCmd ∧
      (p.Run w).p.rsyncConfig.upstreamURL = p.rsyncConfig.upstreamURL ∧
      (p.Run w).p.rsyncConfig.username = p.rsyncConfig.username ∧
      (p.Run w).p.rsyncConfig.password = p.rsyncConfig.password ∧
      (p.Run w).p.rsyncConfig.excludeFile = p.rsyncConfig.excludeFile ∧
      (p.Run w).p.rsyncConfig.extraOptions = p.rsyncConfig.extraOptions) ∧
    (p.Type = providerEnum.provRsync ∧ p.Upstream = p.rsyncConfig.upstreamURL ∧
      p.DataSize = p.dataSize) := by
  obtain ⟨hc, ho, _, _⟩ := Start_frame w p
  obtain ⟨hc2, ho2, _⟩ := Run_frame w p
  refine ⟨⟨ho, hc, ?_⟩, ⟨ho2, hc2, ?_⟩, rfl, rfl, rfl⟩
  · rw [hc]
    exact ⟨rfl, rfl, rfl, rfl, rfl, rfl⟩
  · rw [hc2]
    exact ⟨rfl, rfl, rfl, rfl, rfl, rfl⟩

/-- C17 at the provider built from the job with credentials, across a `Run`
whose process exits with a failure. -/
theorem C17_configuration_is_frozen_witness :
    ∃ p, newRsyncProvider 2 credentialsConfig = Except.ok p ∧
      (p.Run waitFails).p.options = p.options ∧
      (p.Run waitFails).p.rsyncConfig = p.rsyncConfig ∧
      (p.Start allSucceed).p.options = p.options := by
  obtain ⟨p, hp⟩ : ∃ p, newRsyncProvider 2 credentialsConfig = Except.ok p := ⟨_, rfl⟩
  exact ⟨p, hp, (C17_configuration_is_frozen waitFails p).2.1.1,
    (C17_configuration_is_frozen waitFails p).2.1.2.1,
    (C17_configuration_is_frozen allSucceed p).1.1⟩

/-! ## C18: the command vector does not depend on the credentials -/

/-- C18: two accepted configurations that differ at most in username and
password give the same option list and the same command vector (and working
directory) in the handle `Start` creates; the second provider is the first
with the two credentials replaced, so the credentials reach nothing but the
environment map. -/
theorem C18_command_independent_of_credentials (defaultMaxRetry : Int)
    (c1 c2 : rsyncConfig) (p1 p2 : rsyncProvider) (w1 w2 : Collaborators)
    (job1 job2 : cmdJob)
    (h1 : newRsyncProvider defaultMaxRetry c1 = Except.ok p1)
    (h2 : newRsyncProvider defaultMaxRetry c2 = Except.ok p2)
    (hsame : c2 = { c1 with username := c2.username, password := c2.password })
    (hjob1 : (p1.Start w1).p.baseProvider.cmd = some job1)
    (hjob2 : (p2.Start w2).p.baseProvider.cmd = some job2) :
    p1.options = p2.options ∧
    job1.cmd = job2.cmd ∧
    job1.workingDir = job2.workingDir ∧
    p2 = { p1 with rsyncConfig :=
      { p1.rsyncConfig with username := c2.username, password := c2.password } } := by
  obtain ⟨_, ho1, hc1, hb1, hd1⟩ := newRsyncProvider_fields h1
  obtain ⟨_, ho2, hc2, hb2, hd2⟩ := newRsyncProvider_fields h2
  have hp : p2 = { p1 with rsyncConfig :=
      { p1.rsyncConfig with username := c2.username, password := c2.password } } := by
    obtain ⟨b1, r1, o1, d1⟩ := p1
    obtain ⟨b2, r2, o2, d2⟩ := p2
    simp only at ho1 hc1 hb1 hd1 ho2 hc2 hb2 hd2
    subst ho1 hc1 hb1 hd1 ho2 hc2 hb2 hd2
    rw [hsame]
  rw [Start_idle_cmd (isRunning_of_new h1)] at hjob1
  rw [Start_idle_cmd (isRunning_of_new h2)] at hjob2
  injection hjob1 with hjob1
  injection hjob2 with hjob2
  subst hjob1 hjob2
  refine ⟨?_, ?_, ?_, hp⟩
  · rw [hp]
  · rw [hp]; rfl
  · rw [hp]; rfl

/-- C18 at the example job without credentials and the same job with the
credentials `mirror` and `s3cret`. -/
theorem C18_command_independent_of_credentials_witness :
    ∃ p1 p2 job1 job2,
      newRsyncProvider 2 exampleConfig = Except.ok p1 ∧
      newRsyncProvider 2 credentialsConfig = Except.ok p2 ∧
      (p1.Start allSucceed).p.baseProvider.cmd = some job1 ∧
      (p2.Start launchFails).p.baseProvider.cmd = some job2 ∧
      p1.options = p2.options ∧ job1.cmd = job2.cmd ∧ job1.env ≠ job2.env := by
  obtain ⟨p1, hp1⟩ : ∃ p, newRsyncProvider 2 exampleConfig = Except.ok p := ⟨_, rfl⟩
  obtain ⟨p2, hp2⟩ : ∃ p, newRsyncProvider 2 credentialsConfig = Except.ok p := ⟨_, rfl⟩
  obtain ⟨job1, hjob1⟩ : ∃ job, (p1.Start allSucceed).p.baseProvider.cmd = some job :=
    ⟨_, Start_idle_cmd (isRunning_of_new hp1)⟩
  obtain ⟨job2, hjob2⟩ : ∃ job, (p2.Start launchFails).p.baseProvider.cmd = some job :=
    ⟨_, Start_idle_cmd (isRunning_of_new hp2)⟩
  have h := C18_command_independent_of_credentials 2 exampleConfig credentialsConfig p1 p2
    allSucceed launchFails job1 job2 hp1 hp2 rfl hjob1 hjob2
  refine ⟨p1, p2, job1, job2, hp1, hp2, hjob1, hjob2, h.1, h.2.1, ?_⟩
  rw [Start_idle_cmd (isRunning_of_new hp1)] at hjob1
  rw [Start_idle_cmd (isRunning_of_new hp2)] at hjob2
  injection hjob1 with hjob1
  injection hjob2 with hjob2
  subst hjob1 hjob2
  have e1 : p1.rsyncConfig.username = "" := by rw [(newRsyncProvider_fields hp1).2.2.1]; rfl
  have e2 : p2.rsyncConfig.username = "mirror" := by
    rw [(newRsyncProvider_fields hp2).2.2.1]; rfl
  intro henv
  have hu := congrArg (fun m => GoMap.get m "USER") henv
  simp only [rsyncProvider.startJob, newCmdJob] at hu
  rw [(startEnv_get p1).1, (startEnv_get p2).1, e1, e2] at hu
  revert hu
  decide

/-! ## C19: the provider as constructed -/

/-- The upstream URL after one call. -/
theorem Call_apply_Upstream (p : rsyncProvider) (call : Call) :
    (call.apply p).Upstream = p.Upstream := by
  cases call with
  | Start w => exact congrArg rsyncConfig.upstreamURL (Start_frame w p).1
  | Run w => exact congrArg rsyncConfig.upstreamURL (Run_frame w p).1

/-- The upstream URL after a sequence of calls. -/
theorem applyCalls_Upstream (calls : List Call) (p : rsyncProvider) :
    (applyCalls p calls).Upstream = p.Upstream := by
  induction calls generalizing p with
  | nil => rfl
  | cons call rest ih =>
    show (applyCalls (call.apply p) rest).Upstream = p.Upstream
    rw [ih, Call_apply_Upstream]

/-- C19: a provider returned by `newRsyncProvider` is idle (running flag
false), has the empty `DataSize()`, the type `provRsync` and the configured
upstream URL, which ends with "/"; and `Upstream()` is still that URL after any
sequence of `Start` and `Run` calls, whatever the collaborators answer. -/
theorem C19_new_provider (defaultMaxRetry : Int) (c : rsyncConfig) (p : rsyncProvider)
    (h : newRsyncProvider defaultMaxRetry c = Except.ok p) :
    p.baseProvider.isRunning = false ∧
    p.DataSize = "" ∧
    p.Type = providerEnum.provRsync ∧
    p.Upstream = c.upstreamURL ∧
    (∃ t : String, p.Upstream = t ++ "/") ∧
    ∀ calls : List Call, (applyCalls p calls).Upstream = c.upstreamURL := by
  obtain ⟨hs, _, hc, _, hd⟩ := newRsyncProvider_fields h
  have hu : p.Upstream = c.upstreamURL := by
    show p.rsyncConfig.upstreamURL = _
    rw [hc]
  refine ⟨isRunning_of_new h, hd, rfl, hu, ?_, fun calls => ?_⟩
  · rw [hu]
    exact (hasSuffix_slash_iff _).mp hs
  · rw [applyCalls_Upstream, hu]

/-- C19 at the example provider, with a failed `Start`, a `Run` whose process
fails, a successful `Start` and a rejected `Run` after it. -/
theorem C19_new_provider_witness :
    ∃ p, newRsyncProvider 2 exampleConfig = Except.ok p ∧
      p.baseProvider.isRunning = false ∧ p.DataSize = "" ∧
      p.Upstream = "rsync://host/mod/" ∧
      (applyCalls p
        [Call.Start launchFails, Call.Run waitFails, Call.Start allSucceed,
          Call.Run allSucceed]).Upstream = "rsync://host/mod/" := by
  obtain ⟨p, hp⟩ : ∃ p, newRsyncProvider 2 exampleConfig = Except.ok p := ⟨_, rfl⟩
  have h := C19_new_provider 2 exampleConfig p hp
  exact ⟨p, hp, h.1, h.2.1, h.2.2.2.1, h.2.2.2.2.2 _⟩

end worker
